import Mathlib

/-!
# NVRBRTH backend — shallow embedding and verification

Shallow embedding of the NVRBRTH checkout/webhook backend (`src/server.js`,
which contains two server variants, called A and B below) and proofs of the
spec's claims about it.

Variant A (first part of `server.js`): `PRICE_MAP` / `STOCK` catalog,
`makeLineItems`, the `/webhooks/stripe` handler with stock decrement and
order-journal append, and the `/api/checkout` route.

Variant B (second part of `server.js`): `friendlyMap` alias table,
`resolveLineItem`, the `/webhook` handler (no side effects), and the
`/create-checkout-session` route.

External effects (Stripe signature verification, Stripe price search and
line-item listing, JSON parsing of metadata, file append success) are
modelled as oracle parameters so that the handlers' control flow is the part
translated from the source.
-/

namespace NVRBRTH

/-- Association-list lookup mirroring JS object property access
(`PRICE_MAP[productId]`, `friendlyMap[item.sku]`). -/
def alookup {α : Type} (k : String) : List (String × α) → Option α
  | [] => none
  | (a, b) :: rest => if a = k then some b else alookup k rest

/-- Catalog value in `PRICE_MAP` (server.js lines 33–39): display name,
unit amount in pence, currency. -/
structure PriceInfo where
  name : String
  unit_amount : Int
  currency : String
  deriving Repr, DecidableEq

/-- `PRICE_MAP` from server.js lines 33–39 (variant A). -/
def PRICE_MAP : List (String × PriceInfo) :=
  [ ("skinlock_ss_black_s", { name := "SKINLOCK SS Tee — Black — S", unit_amount := 3500, currency := "gbp" }),
    ("skinlock_ss_black_m", { name := "SKINLOCK SS Tee — Black — M", unit_amount := 3500, currency := "gbp" }),
    ("skinlock_ss_black_l", { name := "SKINLOCK SS Tee — Black — L", unit_amount := 3500, currency := "gbp" }),
    ("skinlock_ls_comp_m",  { name := "SKINLOCK LS Compression — M", unit_amount := 5200, currency := "gbp" }) ]

/-- The initial `STOCK` table from server.js lines 42–47 (variant A), as a
total map: `none` for untracked product ids (`STOCK[id] === undefined`). -/
def stock0 (k : String) : Option Int :=
  if k = "skinlock_ss_black_s" then some 10
  else if k = "skinlock_ss_black_m" then some 10
  else if k = "skinlock_ss_black_l" then some 10
  else if k = "skinlock_ls_comp_m" then some 5
  else none

/-- A client cart line as destructured by `makeLineItems`:
`{ productId, quantity }`.  `quantity = none` models a missing or garbled
quantity (one for which JS `Number(quantity)` is `NaN`); `some 0` models an
explicit `0` (falsy in JS, so `Number(quantity) || 1` yields 1 for it too). -/
structure CartItem where
  productId : String
  quantity : Option Int
  deriving Repr, DecidableEq

/-- `Number(quantity) || 1` from server.js line 55: missing/garbled or zero
quantity becomes 1, anything else passes through. -/
def numberOr1 : Option Int → Int
  | none => 1
  | some 0 => 1
  | some n => n

/-- `Math.max(1, Math.min(Number(quantity) || 1, 10))` (server.js line 55). -/
def clampQty (q : Option Int) : Int :=
  max 1 (min (numberOr1 q) 10)

/-- The stock gate of server.js line 56:
`STOCK[productId] !== undefined && STOCK[productId] <= 0`.  Takes the current
stock value for the product id; note it does not look at the requested
quantity at all. -/
def enforceStockFails : Option Int → Bool
  | some s => decide (s ≤ 0)
  | none => false

/-- A Stripe line item as built by `makeLineItems` (server.js lines 59–66).
The price data comes from the catalog entry; the client's cart line carries
no price field at all (JS destructures only `{ productId, quantity }`). -/
structure LineItem where
  currency : String
  name : String
  unit_amount : Int
  quantity : Int
  deriving Repr, DecidableEq

/-- Body of the `cart.map` callback in `makeLineItems` (server.js lines
52–67), for one cart line against the current stock map: unknown product id
throws, then the quantity is clamped, then the stock gate may throw. -/
def resolveCartItem (stock : String → Option Int) (it : CartItem) :
    Except String LineItem :=
  match alookup it.productId PRICE_MAP with
  | none => .error ("Unknown productId: " ++ it.productId)
  | some p =>
    let q := clampQty it.quantity
    if enforceStockFails (stock it.productId) then
      .error ("Out of stock: " ++ it.productId)
    else
      .ok { currency := p.currency, name := p.name,
            unit_amount := p.unit_amount, quantity := q }

/-- Left-to-right, fail-fast traversal of the cart, matching the semantics of
`cart.map` with a throwing callback: the first throwing line aborts the whole
call and any earlier results are discarded. -/
def resolveAll (stock : String → Option Int) :
    List CartItem → Except String (List LineItem)
  | [] => .ok []
  | it :: rest =>
    match resolveCartItem stock it with
    | .error e => .error e
    | .ok li =>
      match resolveAll stock rest with
      | .error e => .error e
      | .ok lis => .ok (li :: lis)

/-- `makeLineItems` (server.js lines 50–68, variant A).  `cart = none` models
a request body whose `cart` is not an array. -/
def makeLineItems (stock : String → Option Int)
    (cart : Option (List CartItem)) : Except String (List LineItem) :=
  match cart with
  | none => .error "Cart empty"
  | some items =>
    if items.isEmpty then .error "Cart empty" else resolveAll stock items

/-- `friendlyMap` from server.js lines 314–334 (variant B): friendly SKU →
Stripe price lookup key. -/
def friendlyMap : List (String × String) :=
  [ ("vein-001", "host001_compression_vein001"),
    ("vein001", "host001_compression_vein001"),
    ("vein-002", "host001_compression_vein002"),
    ("vein002", "host001_compression_vein002"),
    ("obsidian-001", "host001_compression_obsidian"),
    ("obsidian", "host001_compression_obsidian"),
    ("corrode-001", "host001_compression_corrode"),
    ("corrode", "host001_compression_corrode"),
    ("skinlock-exe", "host001_compression_skinlock"),
    ("skinlock", "host001_compression_skinlock"),
    ("reaper-001", "host001_tee_reaper"),
    ("reaper", "host001_tee_reaper"),
    ("wrath-001", "host001_tee_wrath"),
    ("wraith-001", "host001_tee_wrath"),
    ("wrath", "host001_tee_wrath"),
    ("within-001", "host001_hoodie_within"),
    ("within", "host001_hoodie_within"),
    ("nullvoid-001", "host001_hoodie_nullvoid"),
    ("nullvoid", "host001_hoodie_nullvoid") ]

/-- Identifier normalization: the `friendlyMap` alias application of
`resolveLineItem` (server.js line 343) read as a total map, falling through
to the input itself when no alias exists. -/
def normalize (s : String) : String :=
  match alookup s friendlyMap with
  | some v => v
  | none => s

/-- A cart item for variant B's `resolveLineItem`: may carry a direct Stripe
price id, a lookup key, and/or a friendly SKU.  `none` in a string field
models an absent or falsy (empty) value; `quantity` as in `CartItem`
(`item.quantity || 1` treats missing and `0` alike). -/
structure ItemB where
  price : Option String
  lookup_key : Option String
  sku : Option String
  quantity : Option Int
  deriving Repr, DecidableEq

/-- `item.quantity || 1` (server.js lines 340 and 355). -/
def qtyOr1 : Option Int → Int
  | none => 1
  | some 0 => 1
  | some n => n

/-- Output of `resolveLineItem`: `{ price, quantity }` — a Stripe price id
reference plus quantity.  It has no monetary-amount field. -/
structure ResolvedB where
  price : String
  quantity : Int
  deriving Repr, DecidableEq

/-- The lookup-key path of `resolveLineItem` (server.js lines 342–355):
`lookup_key` if present, else `friendlyMap[sku]` if that hits, else error;
then the price search. -/
def resolveViaLookup (search : String → Option String) (it : ItemB) :
    Except String ResolvedB :=
  let lk : Option String :=
    match it.lookup_key with
    | some l => some l
    | none =>
      match it.sku with
      | some s => alookup s friendlyMap
      | none => none
  match lk with
  | none => .error "Item needs price or lookup_key/sku"
  | some l =>
    match search l with
    | none => .error ("No active Stripe price for lookup_key " ++ l)
    | some pid => .ok { price := pid, quantity := qtyOr1 it.quantity }

/-- `String(item.price).startsWith("price_")` (server.js line 339), written
over the character lists so it computes by kernel reduction. -/
def isPriceRef (p : String) : Bool :=
  "price_".data.isPrefixOf p.data

/-- `resolveLineItem` (server.js lines 336–356, variant B).  `search` is the
`stripe.prices.search` oracle: for a lookup key it returns the id of the
first active price, or `none` when the search has no results.  `item = none`
models a falsy array element. -/
def resolveLineItem (search : String → Option String) (item : Option ItemB) :
    Except String ResolvedB :=
  match item with
  | none => .error "Invalid item"
  | some it =>
    match it.price with
    | some p =>
      if isPriceRef p then
        .ok { price := p, quantity := qtyOr1 it.quantity }
      else resolveViaLookup search it
    | none => resolveViaLookup search it

/-- Result of the `/api/checkout` route (variant A, server.js lines
143–167): HTTP status, whether `stripe.checkout.sessions.create` was
reached, the returned redirect url, and the error message sent on failure. -/
structure CheckoutResult where
  status : Nat
  stripeCalled : Bool
  url : Option String
  err : Option String
  deriving Repr, DecidableEq

/-- The `/api/checkout` handler (variant A, server.js lines 143–167).
`create` is the `stripe.checkout.sessions.create` oracle, taking the built
line items and returning the session url or failing.  `makeLineItems` runs
first; any throw is caught and answered with 400 before Stripe is called. -/
def apiCheckout (stock : String → Option Int)
    (create : List LineItem → Except String String)
    (cart : Option (List CartItem)) : CheckoutResult :=
  match makeLineItems stock cart with
  | .error e => { status := 400, stripeCalled := false, url := none, err := some e }
  | .ok lis =>
    match create lis with
    | .error e => { status := 400, stripeCalled := true, url := none, err := some e }
    | .ok u => { status := 200, stripeCalled := true, url := some u, err := none }

/-- Left-to-right, fail-fast resolution of variant B's `items` array
(the `for (const it of items) line_items.push(await resolveLineItem(it))`
loop of server.js lines 364–367). -/
def resolveItemsB (search : String → Option String) :
    List (Option ItemB) → Except String (List ResolvedB)
  | [] => .ok []
  | it :: rest =>
    match resolveLineItem search it with
    | .error e => .error e
    | .ok r =>
      match resolveItemsB search rest with
      | .error e => .error e
      | .ok rs => .ok (r :: rs)

/-- Result of variant B's `/create-checkout-session` route. -/
structure SessionResult where
  status : Nat
  stripeCalled : Bool
  sessionId : Option String
  err : Option String
  deriving Repr, DecidableEq

/-- The `/create-checkout-session` handler (variant B, server.js lines
359–392).  `items = none` models a body whose `items` is missing or not an
array; the empty-cart throw happens before the resolution loop and before
`stripe.checkout.sessions.create` (the `create` oracle).  `frontendBase` is
the `FRONTEND_BASE_URL` env var; `success_url` / `cancel_url` come from the
request body. -/
def createCheckoutSessionB (search : String → Option String)
    (create : List ResolvedB → Except String String)
    (frontendBase : Option String)
    (items : Option (List (Option ItemB)))
    (success_url cancel_url : Option String) : SessionResult :=
  match items with
  | none => { status := 400, stripeCalled := false, sessionId := none,
              err := some "Cart is empty or invalid" }
  | some its =>
    if its.isEmpty then
      { status := 400, stripeCalled := false, sessionId := none,
        err := some "Cart is empty or invalid" }
    else
      match resolveItemsB search its with
      | .error e =>
        { status := 400, stripeCalled := false, sessionId := none, err := some e }
      | .ok lis =>
        let successUrl := match success_url with
          | some u => some u
          | none => frontendBase.map (fun b => b ++ "/thankyou.html")
        let cancelUrl := match cancel_url with
          | some u => some u
          | none => frontendBase.map (fun b => b ++ "/basket.html")
        if successUrl.isNone ∨ cancelUrl.isNone then
          { status := 400, stripeCalled := false, sessionId := none,
            err := some "Missing success_url/cancel_url and FRONTEND_BASE_URL" }
        else
          match create lis with
          | .error e =>
            { status := 400, stripeCalled := true, sessionId := none, err := some e }
          | .ok sid =>
            { status := 200, stripeCalled := true, sessionId := some sid, err := none }

/-- A line of a cart recovered from `session.metadata.cart`
(`JSON.parse` result), as consumed by the decrement loop of server.js lines
101–105: `{ productId, quantity }`. -/
structure MetaCartEntry where
  productId : String
  quantity : Option Int
  deriving Repr, DecidableEq

/-- One iteration of the decrement loop (server.js lines 101–105): for a
tracked product id, `STOCK[id] = Math.max(0, STOCK[id] - (Number(q) || 1))`;
untracked ids are skipped. -/
def applyDecrement (st : String → Option Int) (e : MetaCartEntry) :
    String → Option Int :=
  match st e.productId with
  | none => st
  | some v =>
    fun k => if k = e.productId then some (max 0 (v - numberOr1 e.quantity)) else st k

/-- The whole `cart.forEach` decrement loop, left to right. -/
def decrementCart (cart : List MetaCartEntry) (st : String → Option Int) :
    String → Option Int :=
  cart.foldl applyDecrement st

/-- A Stripe line item as returned by
`stripe.checkout.sessions.listLineItems` and copied into the order record
(server.js lines 119–124). -/
structure FetchedLI where
  description : String
  quantity : Int
  amount_subtotal : Int
  amount_total : Int
  deriving Repr, DecidableEq

/-- The order-journal record built at server.js lines 111–126. -/
structure OrderRecord where
  id : String
  payment_status : String
  amount_total : Int
  currency : String
  customer_email : Option String
  shipping : Option String
  metadata_cart : Option String
  line_items : List FetchedLI
  created : Int
  deriving Repr, DecidableEq

/-- The `checkout.session` object carried by a webhook event, with the
fields the handler reads.  `metadata_cart` is the raw `session.metadata.cart`
string (`none` when metadata is absent or has no `cart`). -/
structure StripeSession where
  id : String
  payment_status : String
  amount_total : Int
  currency : String
  customer_details_email : Option String
  customer_email : Option String
  shipping_details : Option String
  metadata_cart : Option String
  deriving Repr, DecidableEq

/-- A constructed Stripe event: its `type` string and `data.object`. -/
structure StripeEvent where
  type : String
  session : StripeSession
  deriving Repr, DecidableEq

/-- The external collaborators of the `/webhooks/stripe` handler, as oracles:
`constructEvent` is `stripe.webhooks.constructEvent(body, sig, secret)`
(`none` = signature verification throws); `parseCart` is `JSON.parse` on the
metadata cart string (`none` = parse throws); `listLineItems` is
`stripe.checkout.sessions.listLineItems` keyed by session id; `appendOk`
tells whether `fs.appendFileSync` succeeds; `now` is `Date.now()`. -/
structure WebhookEnv where
  secret : String
  constructEvent : String → Option String → String → Option StripeEvent
  parseCart : String → Option (List MetaCartEntry)
  listLineItems : String → Except String (List FetchedLI)
  appendOk : Bool
  now : Int

/-- The server state the webhook handler can touch: the mutable `STOCK`
map, the `orders.json` journal, and the list of sent emails.  The source
contains no email-sending code at all, so no handler ever appends to
`emails`; the field records that fact in the state. -/
structure ServerState where
  stock : String → Option Int
  journal : List OrderRecord
  emails : List String

/-- The order record for a session (server.js lines 111–126):
`customer_email` is `session.customer_details?.email || session.customer_email`. -/
def mkRecord (session : StripeSession) (items : List FetchedLI) (now : Int) :
    OrderRecord :=
  { id := session.id,
    payment_status := session.payment_status,
    amount_total := session.amount_total,
    currency := session.currency,
    customer_email :=
      match session.customer_details_email with
      | some e => some e
      | none => session.customer_email,
    shipping := session.shipping_details,
    metadata_cart := session.metadata_cart,
    line_items := items,
    created := now }

/-- The stock mutation of one `checkout.session.completed` event
(server.js lines 92–109): no `session.metadata.cart` → nothing to decrement;
`JSON.parse` throw → swallowed by the inner catch, stock untouched; parsed
cart → decrement line by line. -/
def webhookStockUpdate (env : WebhookEnv) (session : StripeSession)
    (stock : String → Option Int) : String → Option Int :=
  match session.metadata_cart with
  | none => stock
  | some raw =>
    match env.parseCart raw with
    | none => stock
    | some cart => decrementCart cart stock

/-- The `/webhooks/stripe` handler (variant A, server.js lines 72–137),
returning the HTTP status code and the new server state.  Signature failure
answers 400 before anything else runs; on a `checkout.session.completed`
event the handler fetches line items (a throw there reaches the outer catch:
500, nothing yet mutated), then decrements stock inside its own try/catch
(a cart-parse throw is swallowed), then appends the order record (an append
throw reaches the outer catch: 500, with the decrement already applied);
other event types are acknowledged untouched. -/
def stripeWebhook (env : WebhookEnv) (body : String) (sig : Option String)
    (st : ServerState) : Nat × ServerState :=
  match env.constructEvent body sig env.secret with
  | none => (400, st)
  | some event =>
    if event.type = "checkout.session.completed" then
      let session := event.session
      match env.listLineItems session.id with
      | .error _ => (500, st)
      | .ok items =>
        let stock' := webhookStockUpdate env session st.stock
        let record := mkRecord session items env.now
        if env.appendOk then
          (200, { stock := stock', journal := st.journal ++ [record],
                  emails := st.emails })
        else
          (500, { stock := stock', journal := st.journal, emails := st.emails })
    else
      (200, st)

/-- The `/webhook` handler of variant B (server.js lines 287–308): verify
the signature, log, acknowledge.  It has no side effects, so only the status
is modelled; `construct` is its `stripe.webhooks.constructEvent` oracle. -/
def webhookB (construct : String → Option String → Option StripeEvent)
    (body : String) (sig : Option String) : Nat :=
  match construct body sig with
  | none => 400
  | some _ => 200

/-- A sequence of webhook deliveries against variant A's handler, each with
its own oracle environment, body and signature header, folded over the
server state. -/
def processAll (reqs : List (WebhookEnv × String × Option String))
    (st : ServerState) : ServerState :=
  reqs.foldl (fun s r => (stripeWebhook r.1 r.2.1 r.2.2 s).2) st

/-! ## Concrete fixtures used by witnesses and counterexamples -/

/-- A completed checkout session whose metadata carries a one-line cart. -/
def sess1 : StripeSession :=
  { id := "cs_test_1", payment_status := "paid", amount_total := 3500,
    currency := "gbp", customer_details_email := some "a@b.c",
    customer_email := none, shipping_details := none,
    metadata_cart := some "raw-cart-json" }

/-- The initial server state: the `STOCK` table of server.js lines 42–47,
an empty `orders.json` journal, no emails sent. -/
def st0 : ServerState := { stock := stock0, journal := [], emails := [] }

/-- Oracle environment in which signature verification throws on every
request. -/
def envBadSig : WebhookEnv :=
  { secret := "whsec_1",
    constructEvent := fun _ _ _ => none,
    parseCart := fun _ => none,
    listLineItems := fun _ => .ok [],
    appendOk := true,
    now := 0 }

/-- Oracle environment in which the signature verifies to a completed event
for `sess1`, the metadata cart parses to one `skinlock_ss_black_s` line, the
line-item fetch and the journal append both succeed. -/
def envOk : WebhookEnv :=
  { secret := "whsec_1",
    constructEvent := fun _ _ _ =>
      some { type := "checkout.session.completed", session := sess1 },
    parseCart := fun _ => some [{ productId := "skinlock_ss_black_s", quantity := some 1 }],
    listLineItems := fun _ =>
      .ok [{ description := "SKINLOCK SS Tee — Black — S", quantity := 1,
             amount_subtotal := 3500, amount_total := 3500 }],
    appendOk := true,
    now := 0 }

/-- Like `envOk`, except `stripe.checkout.sessions.listLineItems` throws. -/
def envFetchFail : WebhookEnv :=
  { envOk with listLineItems := fun _ => .error "stripe unreachable" }

/-! ## C1 -/

/-- C1: a webhook request whose signature does not verify is answered 400 by
both handlers, and variant A's handler leaves the server state untouched: no
stock decrement, no order-record append, no email (the source has no
email-sending code, so `emails` is never touched by any path). -/
theorem webhook_bad_signature_rejected_no_side_effects
    (env : WebhookEnv) (body : String) (sig : Option String) (st : ServerState)
    (constructB : String → Option String → Option StripeEvent)
    (hA : env.constructEvent body sig env.secret = none)
    (hB : constructB body sig = none) :
    (stripeWebhook env body sig st).1 = 400 ∧
    (stripeWebhook env body sig st).2.stock = st.stock ∧
    (stripeWebhook env body sig st).2.journal = st.journal ∧
    (stripeWebhook env body sig st).2.emails = st.emails ∧
    webhookB constructB body sig = 400 := by
  simp [stripeWebhook, webhookB, hA, hB]

/-- Witness for C1 at a concrete request against `envBadSig`. -/
theorem webhook_bad_signature_rejected_no_side_effects_witness :
    (stripeWebhook envBadSig "payload" none st0).1 = 400 ∧
    (stripeWebhook envBadSig "payload" none st0).2.stock = st0.stock ∧
    (stripeWebhook envBadSig "payload" none st0).2.journal = st0.journal ∧
    (stripeWebhook envBadSig "payload" none st0).2.emails = st0.emails ∧
    webhookB (fun _ _ => none) "payload" none = 400 :=
  webhook_bad_signature_rejected_no_side_effects envBadSig "payload" none st0
    (fun _ _ => none) rfl rfl

/-! ## C2 -/

/-- C2 counterexample: the signature verifies, yet a failure of the
line-item fetch makes variant A's handler answer 500, not a success
acknowledgement — the outer catch of server.js lines 133–136 sends
`res.status(500)`. -/
theorem webhook_verified_response_counterexample :
    (envFetchFail.constructEvent "payload" none envFetchFail.secret =
      some { type := "checkout.session.completed", session := sess1 }) ∧
    (stripeWebhook envFetchFail "payload" none st0).1 = 500 ∧
    (stripeWebhook envFetchFail "payload" none st0).1 ≠ 200 := by
  refine ⟨rfl, rfl, ?_⟩
  decide

/-- C2 as amended: once the signature verifies, the response is success
exactly when the event is not `checkout.session.completed`, or its line-item
fetch and journal append both succeed; stock-decrement failures (an
unparseable metadata cart) are swallowed and do not affect the status, but a
fetch or append failure yields 500. -/
theorem webhook_verified_success_iff_fetch_and_append_ok
    (env : WebhookEnv) (body : String) (sig : Option String) (st : ServerState)
    (ev : StripeEvent)
    (hv : env.constructEvent body sig env.secret = some ev) :
    ((stripeWebhook env body sig st).1 = 200 ↔
      (ev.type ≠ "checkout.session.completed" ∨
        ((∃ items, env.listLineItems ev.session.id = .ok items) ∧
          env.appendOk = true))) := by
  unfold stripeWebhook
  rw [hv]
  by_cases ht : ev.type = "checkout.session.completed"
  · simp only [ht, if_pos rfl]
    cases hfetch : env.listLineItems ev.session.id with
    | error e => simp [ht, hfetch]
    | ok items =>
      cases happ : env.appendOk with
      | false => simp [ht, hfetch, happ]
      | true => simp [ht, hfetch, happ]
  · simp [ht]

/-- Witness for the amended C2 on a fully successful delivery. -/
theorem webhook_verified_success_iff_fetch_and_append_ok_witness :
    (stripeWebhook envOk "payload" none st0).1 = 200 :=
  (webhook_verified_success_iff_fetch_and_append_ok envOk "payload" none st0
      { type := "checkout.session.completed", session := sess1 } rfl).mpr
    (Or.inr ⟨⟨_, rfl⟩, rfl⟩)

/-! ## C3 -/

/-- C3: delivering the same verified `checkout.session.completed` event for
session `cs_test_1` twice appends two order records for that session id and
decrements the stock twice (10 → 8): the handler has no idempotency guard,
contradicting the claim's exactly-one-record / at-most-one-decrement
property. -/
theorem webhook_double_delivery_duplicates_record_and_decrement :
    (((processAll [(envOk, "payload", none), (envOk, "payload", none)] st0).journal.filter
        (fun r => r.id = "cs_test_1")).length = 2) ∧
    (processAll [(envOk, "payload", none), (envOk, "payload", none)] st0).stock
        "skinlock_ss_black_s" = some 8 ∧
    ((processAll [(envOk, "payload", none)] st0).journal.filter
        (fun r => r.id = "cs_test_1")).length = 1 := by
  refine ⟨rfl, ?_, rfl⟩
  rfl

/-! ## C6 -/

/-- C6: an empty (or non-array) cart makes both session-creation routes fail
with their empty-cart error and status 400, with the payment processor never
called (`stripeCalled = false`, no session id / url produced), for every
stock map, price-search oracle, session-creation oracle and url
configuration. -/
theorem empty_cart_rejected_before_processor_call
    (stock : String → Option Int) (create : List LineItem → Except String String)
    (search : String → Option String) (createB : List ResolvedB → Except String String)
    (fb su cu : Option String) :
    apiCheckout stock create (some []) =
      { status := 400, stripeCalled := false, url := none, err := some "Cart empty" } ∧
    apiCheckout stock create none =
      { status := 400, stripeCalled := false, url := none, err := some "Cart empty" } ∧
    createCheckoutSessionB search createB fb (some []) su cu =
      { status := 400, stripeCalled := false, sessionId := none,
        err := some "Cart is empty or invalid" } ∧
    createCheckoutSessionB search createB fb none su cu =
      { status := 400, stripeCalled := false, sessionId := none,
        err := some "Cart is empty or invalid" } :=
  ⟨rfl, rfl, rfl, rfl⟩

/-! ## C8 -/

/-- C8: an item whose `price` field carries the `price_` prefix is resolved
to exactly that price reference with `quantity || 1`, for every price-search
oracle — so the catalog/alias lookup and the remote search are never
consulted — and the output shape `ResolvedB` carries no monetary amount at
all, so no amount can come from the client. -/
theorem price_reference_bypasses_lookup
    (search : String → Option String) (it : ItemB) (p : String)
    (hp : it.price = some p) (hpre : isPriceRef p = true) :
    resolveLineItem search (some it) =
      .ok { price := p, quantity := qtyOr1 it.quantity } ∧
    qtyOr1 none = 1 := by
  refine ⟨?_, rfl⟩
  simp [resolveLineItem, hp, hpre]

/-- Witness for C8: a concrete `price_...` item, with no quantity given,
against a search oracle that would resolve everything to a different id. -/
theorem price_reference_bypasses_lookup_witness :
    resolveLineItem (fun _ => some "price_other")
      (some { price := some "price_123", lookup_key := some "lk",
              sku := some "vein-001", quantity := none }) =
      .ok { price := "price_123", quantity := 1 } ∧
    qtyOr1 none = 1 :=
  price_reference_bypasses_lookup (fun _ => some "price_other")
    { price := some "price_123", lookup_key := some "lk",
      sku := some "vein-001", quantity := none }
    "price_123" rfl (by decide)

/-! ## C9 -/

/-- C9: the stock gate fails exactly when the stock value is tracked and
`≤ 0`; a line whose product is in the catalog with tracked stock `≥ 1`
resolves successfully whatever quantity is requested, and a line whose stock
is untracked resolves successfully as well. -/
theorem stock_gate_fails_iff_tracked_nonpositive :
    (∀ v : Option Int, enforceStockFails v = true ↔ ∃ s : Int, v = some s ∧ s ≤ 0) ∧
    (∀ (stock : String → Option Int) (it : CartItem) (p : PriceInfo) (s : Int),
      alookup it.productId PRICE_MAP = some p → stock it.productId = some s →
      1 ≤ s →
      resolveCartItem stock it =
        .ok { currency := p.currency, name := p.name, unit_amount := p.unit_amount,
              quantity := clampQty it.quantity }) ∧
    (∀ (stock : String → Option Int) (it : CartItem) (p : PriceInfo),
      alookup it.productId PRICE_MAP = some p → stock it.productId = none →
      resolveCartItem stock it =
        .ok { currency := p.currency, name := p.name, unit_amount := p.unit_amount,
              quantity := clampQty it.quantity }) := by
  refine ⟨?_, ?_, ?_⟩
  · intro v
    cases v with
    | none => simp [enforceStockFails]
    | some s => simp [enforceStockFails]
  · intro stock it p s hp hs hpos
    unfold resolveCartItem
    rw [hp]
    have : enforceStockFails (stock it.productId) = false := by
      rw [hs]; simp [enforceStockFails]; omega
    simp [this]
  · intro stock it p hp hs
    unfold resolveCartItem
    rw [hp]
    have : enforceStockFails (stock it.productId) = false := by
      rw [hs]; simp [enforceStockFails]
    simp [this]

/-- Witness for C9: the gate fires on a tracked zero stock; a quantity of
999 still resolves when one unit is in stock (initial stock map); an
untracked product id passes the gate. -/
theorem stock_gate_fails_iff_tracked_nonpositive_witness :
    (enforceStockFails (some 0) = true) ∧
    (resolveCartItem stock0 { productId := "skinlock_ls_comp_m", quantity := some 999 } =
      .ok { currency := "gbp", name := "SKINLOCK LS Compression — M",
            unit_amount := 5200,
            quantity := clampQty (some 999) }) ∧
    enforceStockFails none = false :=
  ⟨(stock_gate_fails_iff_tracked_nonpositive.1 (some 0)).mpr ⟨0, rfl, by decide⟩,
   stock_gate_fails_iff_tracked_nonpositive.2.1 stock0
     { productId := "skinlock_ls_comp_m", quantity := some 999 }
     { name := "SKINLOCK LS Compression — M", unit_amount := 5200, currency := "gbp" }
     5 rfl rfl (by decide),
   rfl⟩

/-! ## C10 -/

/-- Every tracked stock value is non-negative. -/
def NonNegStock (st : String → Option Int) : Prop :=
  ∀ k v, st k = some v → 0 ≤ v

/-- One decrement step keeps all tracked stock values non-negative: the
updated key gets `max 0 _`, every other key is untouched. -/
theorem applyDecrement_nonneg (st : String → Option Int) (e : MetaCartEntry)
    (h : NonNegStock st) : NonNegStock (applyDecrement st e) := by
  intro k v hv
  unfold applyDecrement at hv
  cases hst : st e.productId with
  | none => rw [hst] at hv; exact h k v hv
  | some w =>
    rw [hst] at hv
    by_cases hk : k = e.productId
    · simp only [hk, if_pos rfl] at hv
      cases hv
      exact le_max_left 0 _
    · simp only [if_neg hk] at hv
      exact h k v hv

/-- The whole metadata-cart decrement loop preserves non-negativity. -/
theorem decrementCart_nonneg (cart : List MetaCartEntry) :
    ∀ st : String → Option Int, NonNegStock st → NonNegStock (decrementCart cart st) := by
  induction cart with
  | nil => intro st h; exact h
  | cons e rest ih =>
    intro st h
    exact ih (applyDecrement st e) (applyDecrement_nonneg st e h)

/-- One webhook delivery preserves non-negativity of the stock map. -/
theorem stripeWebhook_nonneg (env : WebhookEnv) (body : String)
    (sig : Option String) (st : ServerState) (h : NonNegStock st.stock) :
    NonNegStock (stripeWebhook env body sig st).2.stock := by
  unfold stripeWebhook
  cases env.constructEvent body sig env.secret with
  | none => exact h
  | some event =>
    by_cases ht : event.type = "checkout.session.completed"
    · simp only [ht, if_pos rfl]
      cases env.listLineItems event.session.id with
      | error e => exact h
      | ok items =>
        have hstock' : NonNegStock (webhookStockUpdate env event.session st.stock) := by
          unfold webhookStockUpdate
          split
          · exact h
          · split
            · exact h
            · exact decrementCart_nonneg _ st.stock h
        cases env.appendOk with
        | false => exact hstock'
        | true => exact hstock'
    · simp only [if_neg ht]
      exact h

/-- C10: a single decrement sets the affected key to the old value minus the
cart quantity, floored at 0, and no sequence of webhook deliveries —
whatever their oracles, bodies and signatures — can drive a tracked stock
value below zero when it starts non-negative. -/
theorem stock_never_negative :
    (∀ (st : String → Option Int) (e : MetaCartEntry) (v : Int),
      st e.productId = some v →
      applyDecrement st e e.productId = some (max 0 (v - numberOr1 e.quantity))) ∧
    (∀ (reqs : List (WebhookEnv × String × Option String)) (st : ServerState),
      NonNegStock st.stock → NonNegStock (processAll reqs st).stock) := by
  constructor
  · intro st e v hv
    unfold applyDecrement
    rw [hv]
    simp
  · intro reqs
    induction reqs with
    | nil => intro st h; exact h
    | cons r rest ih =>
      intro st h
      exact ih _ (stripeWebhook_nonneg r.1 r.2.1 r.2.2 st h)

/-- Witness for C10: a concrete decrement of 3 units from 10 yields 7, and
the two-delivery scenario against the initial state keeps all tracked stock
non-negative. -/
theorem stock_never_negative_witness :
    applyDecrement stock0 { productId := "skinlock_ss_black_s", quantity := some 3 }
      "skinlock_ss_black_s" = some (max 0 (10 - numberOr1 (some 3))) ∧
    NonNegStock (processAll [(envOk, "payload", none), (envOk, "payload", none)] st0).stock :=
  ⟨stock_never_negative.1 stock0
      { productId := "skinlock_ss_black_s", quantity := some 3 } 10 rfl,
   stock_never_negative.2 [(envOk, "payload", none), (envOk, "payload", none)] st0
     (by
       intro k v hv
       simp only [st0, stock0] at hv
       split_ifs at hv <;> simp at hv <;> omega)⟩

/-! ## C7 -/

/-- A successful association-list lookup returns a pair of the list. -/
theorem alookup_mem {α : Type} {k : String} {v : α} :
    ∀ {l : List (String × α)}, alookup k l = some v → (k, v) ∈ l := by
  intro l
  induction l with
  | nil => intro h; simp [alookup] at h
  | cons hd tl ih =>
    intro h
    unfold alookup at h
    split at h
    · next heq =>
      injection h with h
      subst h
      rw [← heq] at *
      exact List.mem_cons_self _ _
    · exact List.mem_cons_of_mem _ (ih h)

/-- No value of the `friendlyMap` alias table is itself one of its keys:
the canonical lookup keys (`host001_...`) have no alias entry. -/
theorem friendly_vals_not_keys :
    ∀ p ∈ friendlyMap, alookup p.2 friendlyMap = none := by decide

/-- C7: identifier normalization — the `friendlyMap` alias application
falling through to the input — is idempotent on every input string. -/
theorem normalize_idempotent (s : String) :
    normalize (normalize s) = normalize s := by
  cases h : alookup s friendlyMap with
  | none => simp [normalize, h]
  | some v =>
    have hv : alookup v friendlyMap = none :=
      friendly_vals_not_keys (s, v) (alookup_mem h)
    simp [normalize, h, hv]

/-! ## C4 -/

/-- The clamp of server.js line 55 always lands in `[1, 10]`. -/
theorem clampQty_bounds (q : Option Int) : 1 ≤ clampQty q ∧ clampQty q ≤ 10 := by
  unfold clampQty
  constructor
  · exact le_max_left 1 _
  · exact max_le (by norm_num) (min_le_right _ 10)

/-- Per-line correspondence between a cart line and its resolved line item:
the price data is the catalog entry of the line's product id and the
quantity is the clamp of the line's client quantity. -/
def GoodLine (it : CartItem) (li : LineItem) : Prop :=
  ∃ p, alookup it.productId PRICE_MAP = some p ∧
    li = { currency := p.currency, name := p.name, unit_amount := p.unit_amount,
           quantity := clampQty it.quantity }

/-- Every member of the right list of a `Forall₂` has a related witness on
the left. -/
theorem forall₂_exists_left {α β : Type} {R : α → β → Prop} :
    ∀ {l1 : List α} {l2 : List β}, List.Forall₂ R l1 l2 → ∀ b ∈ l2, ∃ a, R a b := by
  intro l1 l2 h
  induction h with
  | nil => intro b hb; simp at hb
  | cons hr _ ih =>
    intro b hb
    rcases List.mem_cons.mp hb with hb | hb
    · exact ⟨_, hb ▸ hr⟩
    · exact ih b hb

/-- When every cart line has a catalog entry and passes the stock gate,
`resolveAll` succeeds and relates the lines pairwise to their catalog
resolution. -/
theorem resolveAll_spec (stock : String → Option Int) :
    ∀ items : List CartItem,
      (∀ it ∈ items, (∃ p, alookup it.productId PRICE_MAP = some p) ∧
        enforceStockFails (stock it.productId) = false) →
      ∃ lis, resolveAll stock items = .ok lis ∧
        List.Forall₂ GoodLine items lis := by
  intro items
  induction items with
  | nil => intro _; exact ⟨[], rfl, List.Forall₂.nil⟩
  | cons it rest ih =>
    intro hall
    obtain ⟨⟨p, hp⟩, hns⟩ := hall it (List.mem_cons_self it rest)
    have hres : resolveCartItem stock it =
        .ok { currency := p.currency, name := p.name, unit_amount := p.unit_amount,
              quantity := clampQty it.quantity } := by
      unfold resolveCartItem
      rw [hp]
      simp [hns]
    obtain ⟨lis, hlis, hrel⟩ := ih (fun x hx => hall x (List.mem_cons_of_mem _ hx))
    refine ⟨_ :: lis, ?_, List.Forall₂.cons ⟨p, hp, rfl⟩ hrel⟩
    simp [resolveAll, hres, hlis]

/-- C4: a non-empty cart all of whose product ids are in the catalog with
positive tracked stock resolves to exactly one line item per cart line; each
quantity is the clamp (into `[1, 10]`) of the client quantity, with a
missing/garbled quantity clamping to 1, and each line item's price data is
exactly the catalog entry of its product id — the client cart line carries
no price at all. -/
theorem known_cart_resolves_line_per_line
    (stock : String → Option Int) (items : List CartItem) (hne : items ≠ [])
    (hall : ∀ it ∈ items, (∃ p, alookup it.productId PRICE_MAP = some p) ∧
      (∃ s, stock it.productId = some s ∧ 0 < s)) :
    ∃ lis, makeLineItems stock (some items) = .ok lis ∧
      lis.length = items.length ∧
      (∀ li ∈ lis, 1 ≤ li.quantity ∧ li.quantity ≤ 10) ∧
      List.Forall₂ GoodLine items lis ∧
      clampQty none = 1 := by
  have hall' : ∀ it ∈ items, (∃ p, alookup it.productId PRICE_MAP = some p) ∧
      enforceStockFails (stock it.productId) = false := by
    intro it hit
    refine ⟨(hall it hit).1, ?_⟩
    obtain ⟨s, hs, hpos⟩ := (hall it hit).2
    rw [hs]
    simp only [enforceStockFails, decide_eq_false_iff_not]
    omega
  obtain ⟨lis, hok, hrel⟩ := resolveAll_spec stock items hall'
  refine ⟨lis, ?_, hrel.length_eq.symm, ?_, hrel, rfl⟩
  · cases items with
    | nil => exact absurd rfl hne
    | cons a l => simpa [makeLineItems] using hok
  · intro li hli
    obtain ⟨it, p, _, heq⟩ := forall₂_exists_left hrel li hli
    rw [heq]
    exact clampQty_bounds it.quantity

/-- Witness for C4: a concrete two-line cart over the initial stock. -/
theorem known_cart_resolves_line_per_line_witness :
    ∃ lis, makeLineItems stock0
        (some [{ productId := "skinlock_ss_black_m", quantity := some 2 },
               { productId := "skinlock_ls_comp_m", quantity := none }]) = .ok lis ∧
      lis.length = ([{ productId := "skinlock_ss_black_m", quantity := some 2 },
                     { productId := "skinlock_ls_comp_m", quantity := none }] :
                      List CartItem).length ∧
      (∀ li ∈ lis, 1 ≤ li.quantity ∧ li.quantity ≤ 10) ∧
      List.Forall₂ GoodLine
        [{ productId := "skinlock_ss_black_m", quantity := some 2 },
         { productId := "skinlock_ls_comp_m", quantity := none }] lis ∧
      clampQty none = 1 :=
  known_cart_resolves_line_per_line stock0
    [{ productId := "skinlock_ss_black_m", quantity := some 2 },
     { productId := "skinlock_ls_comp_m", quantity := none }]
    (by simp)
    (by
      intro it hit
      rcases List.mem_cons.mp hit with h | h
      · subst h
        exact ⟨⟨_, rfl⟩, ⟨10, rfl, by norm_num⟩⟩
      · rw [List.mem_singleton] at h
        subst h
        exact ⟨⟨_, rfl⟩, ⟨5, rfl, by norm_num⟩⟩)

/-! ## C5 -/

/-- A cart containing an unresolvable line makes `resolveAll` fail with a
message naming the product id of the line it stopped on: either the first
unknown product id, or a known-but-out-of-stock product id that precedes
it. -/
theorem resolveAll_unknown_fails (stock : String → Option Int) :
    ∀ items : List CartItem,
      (∃ it ∈ items, alookup it.productId PRICE_MAP = none) →
      ∃ msg, resolveAll stock items = .error msg ∧
        ((∃ it ∈ items, alookup it.productId PRICE_MAP = none ∧
            msg = "Unknown productId: " ++ it.productId) ∨
         (∃ it ∈ items, enforceStockFails (stock it.productId) = true ∧
            msg = "Out of stock: " ++ it.productId)) := by
  intro items
  induction items with
  | nil => intro h; simp at h
  | cons it rest ih =>
    intro h
    cases hp : alookup it.productId PRICE_MAP with
    | none =>
      have hres : resolveCartItem stock it =
          .error ("Unknown productId: " ++ it.productId) := by
        unfold resolveCartItem
        rw [hp]
      refine ⟨_, ?_, Or.inl ⟨it, List.mem_cons_self it rest, hp, rfl⟩⟩
      simp [resolveAll, hres]
    | some p =>
      cases hstk : enforceStockFails (stock it.productId) with
      | true =>
        have hres : resolveCartItem stock it =
            .error ("Out of stock: " ++ it.productId) := by
          unfold resolveCartItem
          rw [hp]
          simp [hstk]
        refine ⟨_, ?_, Or.inr ⟨it, List.mem_cons_self it rest, hstk, rfl⟩⟩
        simp [resolveAll, hres]
      | false =>
        have hres : resolveCartItem stock it =
            .ok { currency := p.currency, name := p.name, unit_amount := p.unit_amount,
                  quantity := clampQty it.quantity } := by
          unfold resolveCartItem
          rw [hp]
          simp [hstk]
        obtain ⟨x, hx, hxnone⟩ := h
        have hxrest : x ∈ rest := by
          rcases List.mem_cons.mp hx with hhead | htail
          · rw [hhead] at hxnone
            rw [hxnone] at hp
            exact absurd hp (by simp)
          · exact htail
        obtain ⟨msg, herr, hd⟩ := ih ⟨x, hxrest, hxnone⟩
        refine ⟨msg, ?_, ?_⟩
        · simp [resolveAll, hres, herr]
        · rcases hd with ⟨y, hy, hd1, hd2⟩ | ⟨y, hy, hd1, hd2⟩
          · exact Or.inl ⟨y, List.mem_cons_of_mem _ hy, hd1, hd2⟩
          · exact Or.inr ⟨y, List.mem_cons_of_mem _ hy, hd1, hd2⟩

/-- C5: a cart with at least one identifier that resolves to no catalog
entry is rejected as a whole — `makeLineItems` returns an error and no line
items at all — and the error message names the identifier resolution
stopped on: the first unknown product id, or an out-of-stock one that
precedes it. -/
theorem unknown_identifier_rejects_whole_cart
    (stock : String → Option Int) (items : List CartItem)
    (h : ∃ it ∈ items, alookup it.productId PRICE_MAP = none) :
    ∃ msg, makeLineItems stock (some items) = .error msg ∧
      ((∃ it ∈ items, alookup it.productId PRICE_MAP = none ∧
          msg = "Unknown productId: " ++ it.productId) ∨
       (∃ it ∈ items, enforceStockFails (stock it.productId) = true ∧
          msg = "Out of stock: " ++ it.productId)) := by
  obtain ⟨msg, herr, hd⟩ := resolveAll_unknown_fails stock items h
  refine ⟨msg, ?_, hd⟩
  cases items with
  | nil =>
    obtain ⟨x, hx, _⟩ := h
    simp at hx
  | cons a l => simpa [makeLineItems] using herr

/-- Witness for C5: a cart whose second line is unknown. -/
theorem unknown_identifier_rejects_whole_cart_witness :
    ∃ msg, makeLineItems stock0
        (some [{ productId := "skinlock_ss_black_s", quantity := some 1 },
               { productId := "unknown-sku", quantity := some 1 }]) = .error msg ∧
      ((∃ it ∈ [({ productId := "skinlock_ss_black_s", quantity := some 1 } : CartItem),
                { productId := "unknown-sku", quantity := some 1 }],
          alookup it.productId PRICE_MAP = none ∧
          msg = "Unknown productId: " ++ it.productId) ∨
       (∃ it ∈ [({ productId := "skinlock_ss_black_s", quantity := some 1 } : CartItem),
                { productId := "unknown-sku", quantity := some 1 }],
          enforceStockFails (stock0 it.productId) = true ∧
          msg = "Out of stock: " ++ it.productId)) :=
  unknown_identifier_rejects_whole_cart stock0
    [{ productId := "skinlock_ss_black_s", quantity := some 1 },
     { productId := "unknown-sku", quantity := some 1 }]
    ⟨{ productId := "unknown-sku", quantity := some 1 }, by simp, rfl⟩

end NVRBRTH
